import Mathlib

/-
Verification development for the data-aggregation core of the
"alert-driver-insights" driver-safety dashboard.

The repository's service layer (TypeScript over a hosted document store and a
hosted realtime key-value store) is shallowly embedded here:

* enumerations (`Severity`, `DriverStatus`, `AlertPriority`, ...) become
  inductive types;
* Firestore `Timestamp` values and epoch-millisecond numbers become `Nat`;
* nullable fields become `Option`;
* `Record<number, number>` histograms become functions `Nat → Nat`;
* `Math.min` becomes `min`, and `Math.round (a / b)` on non-negative numbers
  becomes `jsRoundDiv` (on possibly-negative numerators, `jsRoundDivInt`);
* a Firestore collection becomes an association list keyed by document id, a
  realtime-store path map becomes a function `String → Option entry`;
* a fallible store update (`updateDoc` on a possibly missing document) becomes
  an `Except`-returning function.

Identifier generation (`` `ALT${Date.now().toString(36).toUpperCase()}` ``) is
modelled with a decimal rendering of the clock value instead of base-36
upper-case rendering: both are injective encodings of `Date.now()` and no
property below depends on the shape of a generated id.
-/

namespace AlertDriver

/-- Severity enumeration from the types module: 'low' | 'medium' | 'high'. -/
inductive Severity
  | low
  | medium
  | high
deriving DecidableEq, Repr

/-- Driver status of a drowsiness event: 'alert' | 'drowsy' | 'sleeping'. -/
inductive DriverStatus
  | alert
  | drowsy
  | sleeping
deriving DecidableEq, Repr

/-- Live status stored in the realtime store: adds 'offline'. -/
inductive LiveDriverStatus
  | alert
  | drowsy
  | sleeping
  | offline
deriving DecidableEq, Repr

/-- Alert type enumeration. -/
inductive AlertType
  | drowsiness_detected
  | high_severity
  | system_warning
  | driver_offline
deriving DecidableEq, Repr

/-- Alert priority enumeration: 'low' | 'medium' | 'high' | 'critical'. -/
inductive AlertPriority
  | low
  | medium
  | high
  | critical
deriving DecidableEq, Repr

/-- Geographic point; the coordinates are opaque to every property below, so
the floating-point latitude/longitude are abstracted to integers. -/
structure GeoPoint where
  latitude : Int
  longitude : Int
deriving DecidableEq, Repr

/-- Firestore document shape of a drowsiness event (types module).
Timestamps are epoch milliseconds as `Nat`; nullable fields are `Option`. -/
structure DrowsinessEventDoc where
  eventId : String
  driverId : String
  driverName : String
  startTime : Nat
  endTime : Option Nat
  duration : Option Nat
  driverStatus : DriverStatus
  severity : Severity
  resolved : Bool
  resolvedAt : Option Nat
  resolvedBy : Option String
  notes : String
  location : Option GeoPoint
  createdAt : Nat
deriving DecidableEq, Repr

/-- JavaScript `Math.round (a / b)` for natural `a` and positive `b`:
`⌊a / b + 1 / 2⌋ = (2 * a + b) / (2 * b)` in natural division. -/
def jsRoundDiv (a b : Nat) : Nat :=
  (2 * a + b) / (2 * b)

/-- JavaScript `Math.round (a / b)` for integer `a` and positive `b`.
`Math.round` rounds halves toward positive infinity, which is
`⌊a / b + 1 / 2⌋`, i.e. floor division of `2 * a + b` by `2 * b`. -/
def jsRoundDivInt (a b : Int) : Int :=
  Int.fdiv (2 * a + b) (2 * b)

/-- Local-time hour extraction `timestamp.toDate().getHours()` for an
epoch-millisecond value. The model fixes the environment timezone at UTC
(offset zero): `hours = t / 3600000 % 24`. Every property below depends only
on the result lying in `0..23`, which holds for any fixed timezone offset. -/
def getHours (t : Nat) : Nat :=
  t / 3600000 % 24

/-- Firestore document shape of the per-driver aggregated stats. -/
structure DriverStatsDoc where
  driverId : String
  driverName : String
  totalEvents : Nat
  totalDrowsinessTime : Nat
  averageEventDuration : Nat
  highSeverityCount : Nat
  mediumSeverityCount : Nat
  lowSeverityCount : Nat
  lastEventTime : Option Nat
  riskScore : Nat
  updatedAt : Nat
deriving DecidableEq, Repr

/-- The risk-score formula of the specification:
`min(min(eventCount*5, 40) + min(highCount*15 + mediumCount*5, 40)
     + min(round(totalDurationSeconds/60), 20), 100)`. -/
def riskScoreFormula (eventCount highCount mediumCount totalDuration : Nat) : Nat :=
  min (min (eventCount * 5) 40
        + min (highCount * 15 + mediumCount * 5) 40
        + min (jsRoundDiv totalDuration 60) 20) 100

/-- `computeDriverStats` from the stats service (lines 140-178): filters the
batch to the matching `driverId`, computes totals, severity buckets, the risk
score, and the most recent event; `updatedAt := Timestamp.now()` is the `now`
parameter. The source computes `lastEvent` by an in-place stable descending
sort on `startTime` followed by `[0]`; its head is the first event attaining
the maximal `startTime`, which the fold below computes directly (the sort
happens after every other quantity has been computed, so the mutation it does
to `driverEvents` affects nothing else). -/
def computeDriverStats (driverId driverName : String)
    (events : List DrowsinessEventDoc) (now : Nat) : DriverStatsDoc :=
  let driverEvents := events.filter (fun e => e.driverId == driverId)
  let totalDuration := driverEvents.foldl (fun sum e => sum + e.duration.getD 0) 0
  let highCount := (driverEvents.filter (fun e => e.severity == Severity.high)).length
  let mediumCount := (driverEvents.filter (fun e => e.severity == Severity.medium)).length
  let lowCount := (driverEvents.filter (fun e => e.severity == Severity.low)).length
  let eventScore := min (driverEvents.length * 5) 40
  let severityScore := min (highCount * 15 + mediumCount * 5) 40
  let durationScore := min (jsRoundDiv totalDuration 60) 20
  let riskScore := min (eventScore + severityScore + durationScore) 100
  let lastEvent := driverEvents.foldl
    (fun best e =>
      match best with
      | none => some e
      | some b => if b.startTime < e.startTime then some e else some b)
    none
  { driverId := driverId
    driverName := driverName
    totalEvents := driverEvents.length
    totalDrowsinessTime := totalDuration
    averageEventDuration :=
      if driverEvents.length > 0 then jsRoundDiv totalDuration driverEvents.length else 0
    highSeverityCount := highCount
    mediumSeverityCount := mediumCount
    lowSeverityCount := lowCount
    lastEventTime := lastEvent.map (fun e => e.startTime)
    riskScore := riskScore
    updatedAt := now }

/-- An event of the specification's driver-stats scenario batch: driver
"DRV001", the given severity, the given duration. -/
def scenarioEvent (sev : Severity) (dur : Nat) : DrowsinessEventDoc :=
  { eventId := ""
    driverId := "DRV001"
    driverName := ""
    startTime := 0
    endTime := some dur
    duration := some dur
    driverStatus := DriverStatus.drowsy
    severity := sev
    resolved := false
    resolvedAt := none
    resolvedBy := none
    notes := ""
    location := none
    createdAt := 0 }

/-- The scenario batch
`[{severity: high, duration: 78}, {severity: medium, duration: 34},
  {severity: low, duration: 12}]` for driver "DRV001". -/
def scenarioBatch : List DrowsinessEventDoc :=
  [scenarioEvent Severity.high 78, scenarioEvent Severity.medium 34,
   scenarioEvent Severity.low 12]

/-- Folding `fun s e => s + f e` over a list from `n` adds the sum of the
mapped values. -/
theorem foldl_add_eq_sum {α : Type} (f : α → Nat) (l : List α) :
    ∀ n : Nat, l.foldl (fun s e => s + f e) n = n + (l.map f).sum := by
  induction l with
  | nil => intro n; simp
  | cons e l ih =>
    intro n
    simp [List.foldl_cons, ih (n + f e)]
    omega

/-- C1: for every driver event batch, the `riskScore` stored by
`computeDriverStats` equals
`min(min(eventCount*5, 40) + min(highCount*15 + mediumCount*5, 40)
     + min(round(totalDurationSeconds/60), 20), 100)` computed from the events
of the batch whose `driverId` matches; and on the scenario batch
`[{high, 78}, {medium, 34}, {low, 12}]` for one driver it yields
`totalEvents = 3`, `totalDrowsinessTime = 124`, `averageEventDuration = 41`,
one event in each severity bucket, and `riskScore = 37`. -/
theorem computeDriverStats_riskScore_spec :
    (∀ (did dn : String) (events : List DrowsinessEventDoc) (now : Nat),
      (computeDriverStats did dn events now).riskScore =
        riskScoreFormula
          (events.filter (fun e => e.driverId == did)).length
          ((events.filter (fun e => e.driverId == did)).countP
            (fun e => e.severity == Severity.high))
          ((events.filter (fun e => e.driverId == did)).countP
            (fun e => e.severity == Severity.medium))
          (((events.filter (fun e => e.driverId == did)).map
            (fun e => e.duration.getD 0)).sum)) ∧
    (∀ (dn : String) (now : Nat),
      (computeDriverStats "DRV001" dn scenarioBatch now).totalEvents = 3 ∧
      (computeDriverStats "DRV001" dn scenarioBatch now).totalDrowsinessTime = 124 ∧
      (computeDriverStats "DRV001" dn scenarioBatch now).averageEventDuration = 41 ∧
      (computeDriverStats "DRV001" dn scenarioBatch now).highSeverityCount = 1 ∧
      (computeDriverStats "DRV001" dn scenarioBatch now).mediumSeverityCount = 1 ∧
      (computeDriverStats "DRV001" dn scenarioBatch now).lowSeverityCount = 1 ∧
      (computeDriverStats "DRV001" dn scenarioBatch now).riskScore = 37) := by
  constructor
  · intro did dn events now
    simp [computeDriverStats, riskScoreFormula, List.countP_eq_length_filter,
      foldl_add_eq_sum]
  · intro dn now
    exact ⟨rfl, rfl, rfl, rfl, rfl, rfl, rfl⟩

/-- Rounded division is monotone in the numerator. -/
theorem jsRoundDiv_mono {a a' : Nat} (b : Nat) (h : a ≤ a') :
    jsRoundDiv a b ≤ jsRoundDiv a' b :=
  Nat.div_le_div_right (by omega)

/-- C9: the risk score computed by `computeDriverStats` is monotonically
non-decreasing in each of the event count, the high-severity count, the
medium-severity count, and the total duration, holding the other inputs
fixed, and for every input it lies in `[0, 100]` (the lower bound is
automatic in `Nat`). -/
theorem computeDriverStats_riskScore_monotone_bounded :
    (∀ n n' h m d, n ≤ n' → riskScoreFormula n h m d ≤ riskScoreFormula n' h m d) ∧
    (∀ n h h' m d, h ≤ h' → riskScoreFormula n h m d ≤ riskScoreFormula n h' m d) ∧
    (∀ n h m m' d, m ≤ m' → riskScoreFormula n h m d ≤ riskScoreFormula n h m' d) ∧
    (∀ n h m d d', d ≤ d' → riskScoreFormula n h m d ≤ riskScoreFormula n h m d') ∧
    (∀ n h m d, riskScoreFormula n h m d ≤ 100) ∧
    (∀ (did dn : String) (events : List DrowsinessEventDoc) (now : Nat),
      (computeDriverStats did dn events now).riskScore ≤ 100) := by
  have hform : ∀ n h m d, riskScoreFormula n h m d ≤ 100 := by
    intro n h m d
    exact min_le_right _ _
  refine ⟨?_, ?_, ?_, ?_, hform, ?_⟩
  · intro n n' h m d hle
    unfold riskScoreFormula
    have : min (n * 5) 40 ≤ min (n' * 5) 40 :=
      min_le_min (Nat.mul_le_mul_right 5 hle) le_rfl
    exact min_le_min (by omega) le_rfl
  · intro n h h' m d hle
    unfold riskScoreFormula
    have : min (h * 15 + m * 5) 40 ≤ min (h' * 15 + m * 5) 40 :=
      min_le_min (by omega) le_rfl
    exact min_le_min (by omega) le_rfl
  · intro n h m m' d hle
    unfold riskScoreFormula
    have : min (h * 15 + m * 5) 40 ≤ min (h * 15 + m' * 5) 40 :=
      min_le_min (by omega) le_rfl
    exact min_le_min (by omega) le_rfl
  · intro n h m d d' hle
    unfold riskScoreFormula
    have : min (jsRoundDiv d 60) 20 ≤ min (jsRoundDiv d' 60) 20 :=
      min_le_min (jsRoundDiv_mono 60 hle) le_rfl
    exact min_le_min (by omega) le_rfl
  · intro did dn events now
    calc (computeDriverStats did dn events now).riskScore
        = riskScoreFormula
            (events.filter (fun e => e.driverId == did)).length
            ((events.filter (fun e => e.driverId == did)).countP
              (fun e => e.severity == Severity.high))
            ((events.filter (fun e => e.driverId == did)).countP
              (fun e => e.severity == Severity.medium))
            (((events.filter (fun e => e.driverId == did)).map
              (fun e => e.duration.getD 0)).sum) := by
          simp [computeDriverStats, riskScoreFormula, List.countP_eq_length_filter,
            foldl_add_eq_sum]
      _ ≤ 100 := hform _ _ _ _

/-- Witness for the monotonicity hypotheses of
`computeDriverStats_riskScore_monotone_bounded` at concrete inputs. -/
theorem computeDriverStats_riskScore_monotone_bounded_witness :
    riskScoreFormula 1 1 1 60 ≤ riskScoreFormula 2 1 1 60 ∧
    riskScoreFormula 1 1 1 60 ≤ riskScoreFormula 1 3 1 60 ∧
    riskScoreFormula 1 1 1 60 ≤ riskScoreFormula 1 1 4 60 ∧
    riskScoreFormula 1 1 1 60 ≤ riskScoreFormula 1 1 1 600 :=
  ⟨computeDriverStats_riskScore_monotone_bounded.1 1 2 1 1 60 (by decide),
   computeDriverStats_riskScore_monotone_bounded.2.1 1 1 3 1 60 (by decide),
   computeDriverStats_riskScore_monotone_bounded.2.2.1 1 1 1 4 60 (by decide),
   computeDriverStats_riskScore_monotone_bounded.2.2.2.1 1 1 1 60 600 (by decide)⟩

/-- Firestore document shape of the per-day aggregated stats. The
`Record<number, number>` histogram is a function `Nat → Nat`. -/
structure DailyStatsDoc where
  date : String
  totalEvents : Nat
  highSeverityEvents : Nat
  mediumSeverityEvents : Nat
  lowSeverityEvents : Nat
  totalDrowsinessDuration : Nat
  averageDuration : Nat
  activeDrivers : Nat
  peakHour : Nat
  eventsByHour : Nat → Nat
  updatedAt : Nat

/-- One loop iteration of the histogram construction in `computeDailyStats`:
`eventsByHour[hour] = (eventsByHour[hour] || 0) + 1` for
`hour = event.startTime.toDate().getHours()`. -/
def histStep (m : Nat → Nat) (e : DrowsinessEventDoc) : Nat → Nat :=
  fun h => if h = getHours e.startTime then m h + 1 else m h

/-- The 24-bucket histogram of `computeDailyStats`: buckets `0..23` are
initialised to `0`, then incremented per event (the initialisation loop
`for (let h = 0; h < 24; h++) eventsByHour[h] = 0` is the constant-zero
function, total on `Nat` since `getHours` always lands in `0..23`). -/
def eventsByHourOf (events : List DrowsinessEventDoc) : Nat → Nat :=
  events.foldl histStep (fun _ => 0)

/-- The peak-hour reduce of `computeDailyStats`:
`Object.entries(eventsByHour).reduce((max, [h, c]) => c > max.count ? {hour: h, count: c} : max, {hour: 0, count: 0})`.
The entries of the histogram object are the pairs `(h, m h)` for
`h = 0, ..., 23` in that order (integer-like keys enumerate in ascending
numeric order). -/
def peakEntry (m : Nat → Nat) : Nat × Nat :=
  ((List.range 24).map (fun h => (h, m h))).foldl
    (fun acc hc => if hc.2 > acc.2 then hc else acc) (0, 0)

/-- `computeDailyStats` from the stats service (lines 62-106): builds the
24-bucket histogram, sums duration, counts severity buckets (the source's
`else lowCount++` branch counts events that are neither high nor medium),
counts distinct driver ids (the `Set<string>` of driver ids, modelled by
deduplicating the id list), computes the peak hour, and fills the stats
record; `updatedAt := Timestamp.now()` is the `now` parameter. -/
def computeDailyStats (date : String) (events : List DrowsinessEventDoc)
    (now : Nat) : DailyStatsDoc :=
  let eventsByHour := eventsByHourOf events
  let totalDuration := events.foldl (fun s e => s + e.duration.getD 0) 0
  let highCount := events.countP (fun e => e.severity == Severity.high)
  let mediumCount := events.countP (fun e => e.severity == Severity.medium)
  let lowCount := events.countP
    (fun e => !(e.severity == Severity.high) && !(e.severity == Severity.medium))
  let driverSetSize := (events.map (fun e => e.driverId)).eraseDups.length
  let peakHour := (peakEntry eventsByHour).1
  { date := date
    totalEvents := events.length
    highSeverityEvents := highCount
    mediumSeverityEvents := mediumCount
    lowSeverityEvents := lowCount
    totalDrowsinessDuration := totalDuration
    averageDuration :=
      if events.length > 0 then jsRoundDiv totalDuration events.length else 0
    activeDrivers := driverSetSize
    peakHour := peakHour
    eventsByHour := eventsByHour
    updatedAt := now }

/-- Every event falls in exactly one of the three severity branches of the
counting loop, so the three counters sum to the batch length. -/
theorem countP_severity_partition (l : List DrowsinessEventDoc) :
    l.countP (fun e => e.severity == Severity.high)
      + l.countP (fun e => e.severity == Severity.medium)
      + l.countP
          (fun e => !(e.severity == Severity.high) && !(e.severity == Severity.medium)) =
      l.length := by
  induction l with
  | nil => simp
  | cons e l ih =>
    cases hs : e.severity <;> simp [List.countP_cons, hs] <;> omega

/-- The histogram fold evaluated at a bucket: the initial value plus the
number of events whose start hour is that bucket. -/
theorem foldl_histStep_apply (l : List DrowsinessEventDoc) :
    ∀ (f : Nat → Nat) (h : Nat),
      (l.foldl histStep f) h = f h + l.countP (fun e => getHours e.startTime == h) := by
  induction l with
  | nil => intro f h; simp
  | cons e l ih =>
    intro f h
    rw [List.foldl_cons, ih (histStep f e) h, List.countP_cons]
    by_cases hc : h = getHours e.startTime
    · simp [histStep, hc]
      omega
    · have : ¬(getHours e.startTime == h) = true := by
        simp [beq_iff_eq]
        omega
      simp [histStep, hc, this]

/-- The stored histogram counts, per bucket, the events starting in that
hour. -/
theorem eventsByHourOf_apply (events : List DrowsinessEventDoc) (h : Nat) :
    eventsByHourOf events h = events.countP (fun e => getHours e.startTime == h) := by
  simpa using foldl_histStep_apply events (fun _ => 0) h

/-- Summed over the 24 buckets, the per-hour event counts give the batch
length, because every start hour lies in `0..23`. -/
theorem sum_countP_hours (l : List DrowsinessEventDoc) :
    ∑ h ∈ Finset.range 24, l.countP (fun e => getHours e.startTime == h) = l.length := by
  induction l with
  | nil => simp
  | cons e l ih =>
    have hmem : getHours e.startTime ∈ Finset.range 24 :=
      Finset.mem_range.mpr (Nat.mod_lt _ (by decide))
    simp only [List.countP_cons]
    rw [Finset.sum_add_distrib, ih]
    simp [beq_iff_eq, Finset.sum_ite_eq, hmem]

/-- C3: for every batch of `N` events, the DailyStats record produced by
`computeDailyStats` satisfies
`totalEvents = highSeverityEvents + mediumSeverityEvents + lowSeverityEvents`,
and the 24 entries of its `eventsByHour` histogram sum to `N`. -/
theorem computeDailyStats_totals (date : String)
    (events : List DrowsinessEventDoc) (now : Nat) :
    (computeDailyStats date events now).totalEvents =
        (computeDailyStats date events now).highSeverityEvents
          + (computeDailyStats date events now).mediumSeverityEvents
          + (computeDailyStats date events now).lowSeverityEvents ∧
    ∑ h ∈ Finset.range 24, (computeDailyStats date events now).eventsByHour h =
      events.length := by
  constructor
  · have hpart := countP_severity_partition events
    simp only [computeDailyStats]
    omega
  · have hproj : (computeDailyStats date events now).eventsByHour =
        eventsByHourOf events := rfl
    rw [hproj, Finset.sum_congr rfl (fun h _ => eventsByHourOf_apply events h),
      sum_countP_hours]

/-- The peak-hour reduce step seen as a function of the hour alone (the
entries list pairs each hour with its bucket value). -/
def peakStep (m : Nat → Nat) (acc : Nat × Nat) (h : Nat) : Nat × Nat :=
  if m h > acc.2 then (h, m h) else acc

/-- Folding over the entries list is folding `peakStep` over the hours. -/
theorem peakEntry_eq_foldl (m : Nat → Nat) :
    peakEntry m = (List.range 24).foldl (peakStep m) (0, 0) := by
  rw [peakEntry, List.foldl_map]
  rfl

/-- The first step of the reduce turns the initial accumulator `(0, 0)` into
`(0, m 0)`: either bucket `0` is positive and wins, or it is zero and the
accumulator is already propositionally `(0, m 0)`. -/
theorem peakStep_init (m : Nat → Nat) : peakStep m (0, 0) 0 = (0, m 0) := by
  by_cases h0 : m 0 > 0
  · simp [peakStep, h0]
  · have : m 0 = 0 := by omega
    simp [peakStep, this]

/-- Invariant of the peak reduce, for an accumulator `(a, m a)` and a strictly
increasing remaining hour list whose members all exceed `a`: the result still
pairs an hour with its bucket value, never decreases, dominates every
remaining bucket, is the lowest hour attaining its value among the remaining
hours, and moves off the accumulator only for a strictly larger value. -/
theorem peakStep_foldl_inv (m : Nat → Nat) :
    ∀ (l : List Nat) (a : Nat),
      l.Pairwise (fun x y => x < y) →
      (∀ h ∈ l, a < h) →
      (l.foldl (peakStep m) (a, m a) = (a, m a) ∨
          ((l.foldl (peakStep m) (a, m a)).1 ∈ l ∧
            m a < (l.foldl (peakStep m) (a, m a)).2)) ∧
      (l.foldl (peakStep m) (a, m a)).2 = m (l.foldl (peakStep m) (a, m a)).1 ∧
      m a ≤ (l.foldl (peakStep m) (a, m a)).2 ∧
      (∀ h ∈ l, m h ≤ (l.foldl (peakStep m) (a, m a)).2) ∧
      (∀ h ∈ l, m h = (l.foldl (peakStep m) (a, m a)).2 →
        (l.foldl (peakStep m) (a, m a)).1 ≤ h) ∧
      (m a = (l.foldl (peakStep m) (a, m a)).2 →
        l.foldl (peakStep m) (a, m a) = (a, m a)) := by
  intro l
  induction l with
  | nil =>
    intro a _ _
    refine ⟨Or.inl rfl, rfl, le_rfl, ?_, ?_, fun _ => rfl⟩ <;> simp
  | cons h l ih =>
    intro a hpair hgt
    have hpair' : l.Pairwise (fun x y => x < y) := (List.pairwise_cons.mp hpair).2
    have hhead : ∀ x ∈ l, h < x := (List.pairwise_cons.mp hpair).1
    have hah : a < h := hgt h (List.mem_cons_self h l)
    by_cases hc : m a < m h
    · have hstep : peakStep m (a, m a) h = (h, m h) := by
        simp [peakStep, hc]
      obtain ⟨hor, heq, hle, hbound, hmin, hstay⟩ := ih h hpair' hhead
      rw [List.foldl_cons, hstep]
      set r := l.foldl (peakStep m) (h, m h) with hr
      refine ⟨?_, heq, ?_, ?_, ?_, ?_⟩
      · rcases hor with hor | ⟨hmem, hlt⟩
        · exact Or.inr ⟨by rw [hor]; exact List.mem_cons_self h l, by rw [hor]; exact hc⟩
        · exact Or.inr ⟨List.mem_cons_of_mem h hmem, lt_trans hc hlt⟩
      · exact le_trans (le_of_lt hc) hle
      · intro x hx
        rcases List.mem_cons.mp hx with hx | hx
        · rw [hx]; exact hle
        · exact hbound x hx
      · intro x hx hxeq
        rcases List.mem_cons.mp hx with hx | hx
        · rw [hx] at hxeq ⊢
          have := hstay hxeq
          rw [this]
        · exact hmin x hx hxeq
      · intro habs
        have : m a < r.2 := lt_of_lt_of_le hc hle
        omega
    · have hstep : peakStep m (a, m a) h = (a, m a) := by
        simp [peakStep]
        omega
      have hmh : m h ≤ m a := by omega
      obtain ⟨hor, heq, hle, hbound, hmin, hstay⟩ :=
        ih a hpair' (fun x hx => hgt x (List.mem_cons_of_mem h hx))
      rw [List.foldl_cons, hstep]
      set r := l.foldl (peakStep m) (a, m a) with hr
      refine ⟨?_, heq, hle, ?_, ?_, hstay⟩
      · rcases hor with hor | ⟨hmem, hlt⟩
        · exact Or.inl hor
        · exact Or.inr ⟨List.mem_cons_of_mem h hmem, hlt⟩
      · intro x hx
        rcases List.mem_cons.mp hx with hx | hx
        · rw [hx]; exact le_trans hmh hle
        · exact hbound x hx
      · intro x hx hxeq
        rcases List.mem_cons.mp hx with hx | hx
        · have hma : m a = r.2 := by
            rw [hx] at hxeq
            omega
          have := hstay hma
          rw [this, hx]
          exact le_of_lt hah
        · exact hmin x hx hxeq

/-- The hour list `1..23` processed after the first step. -/
theorem range_24_split : List.range 24 = 0 :: List.range' 1 23 := by
  decide

/-- C2: for every event batch, the `peakHour` stored by `computeDailyStats`
is an hour in `0..23` whose histogram bucket holds the maximum count, and any
hour whose bucket ties the maximum is at least `peakHour` (so ties break to
the lowest hour, the first maximum of the left-to-right scan). -/
theorem computeDailyStats_peakHour_first_max (date : String)
    (events : List DrowsinessEventDoc) (now : Nat) :
    (computeDailyStats date events now).peakHour < 24 ∧
    (∀ h, h < 24 →
      (computeDailyStats date events now).eventsByHour h ≤
        (computeDailyStats date events now).eventsByHour
          (computeDailyStats date events now).peakHour) ∧
    (∀ h, h < 24 →
      (computeDailyStats date events now).eventsByHour h =
        (computeDailyStats date events now).eventsByHour
          (computeDailyStats date events now).peakHour →
      (computeDailyStats date events now).peakHour ≤ h) := by
  have hbuckets : (computeDailyStats date events now).eventsByHour =
      eventsByHourOf events := rfl
  have hpeak : (computeDailyStats date events now).peakHour =
      (peakEntry (eventsByHourOf events)).1 := rfl
  set m := eventsByHourOf events with hm
  have hfold : peakEntry m =
      (List.range' 1 23).foldl (peakStep m) (0, m 0) := by
    rw [peakEntry_eq_foldl, range_24_split, List.foldl_cons, peakStep_init]
  obtain ⟨hor, heq, hle, hbound, hmin, hstay⟩ :=
    peakStep_foldl_inv m (List.range' 1 23) 0 (by decide) (by decide)
  set r := (List.range' 1 23).foldl (peakStep m) (0, m 0) with hrdef
  have hmem24 : ∀ h : Nat, h < 24 → h = 0 ∨ h ∈ List.range' 1 23 := by
    intro h hh
    rcases Nat.eq_zero_or_pos h with h0 | hpos
    · exact Or.inl h0
    · exact Or.inr (List.mem_range'_1.mpr ⟨hpos, by omega⟩)
  rw [hbuckets, hpeak, hfold]
  refine ⟨?_, ?_, ?_⟩
  · rcases hor with hor | ⟨hmem, _⟩
    · rw [hor]
      show (0 : Nat) < 24
      decide
    · have := List.mem_range'_1.mp hmem
      omega
  · intro h hh
    rw [← heq]
    rcases hmem24 h hh with h0 | hmem
    · rw [h0]; exact hle
    · exact hbound h hmem
  · intro h hh hties
    rw [← heq] at hties
    rcases hmem24 h hh with h0 | hmem
    · rw [h0] at hties ⊢
      have := hstay hties
      rw [this]
    · exact hmin h hmem hties

/-- Witness for `computeDailyStats_peakHour_first_max`: on the scenario batch
(all events start at epoch 0, hence hour 0) bucket 5 is dominated by the peak
bucket, and hour 0, which ties the peak bucket, is at least the peak hour. -/
theorem computeDailyStats_peakHour_first_max_witness :
    (computeDailyStats "2024-01-01" scenarioBatch 0).eventsByHour 5 ≤
      (computeDailyStats "2024-01-01" scenarioBatch 0).eventsByHour
        (computeDailyStats "2024-01-01" scenarioBatch 0).peakHour ∧
    (computeDailyStats "2024-01-01" scenarioBatch 0).peakHour ≤ 0 :=
  ⟨(computeDailyStats_peakHour_first_max "2024-01-01" scenarioBatch 0).2.1 5
      (by decide),
   (computeDailyStats_peakHour_first_max "2024-01-01" scenarioBatch 0).2.2 0
      (by decide) rfl⟩

/-- Firestore document shape of an alert. -/
structure AlertDoc where
  alertId : String
  type : AlertType
  priority : AlertPriority
  driverId : String
  driverName : String
  eventId : Option String
  message : String
  acknowledged : Bool
  acknowledgedAt : Option Nat
  acknowledgedBy : Option String
  createdAt : Nat
deriving DecidableEq, Repr

/-- `createAlert` from the alerts service (lines 32-57): builds the alert
document that `addDoc` stores, with a generated `alertId`, `acknowledged`
initialised to `false`, and `createdAt := Timestamp.now()`. -/
def createAlert (ty : AlertType) (priority : AlertPriority)
    (driverId driverName : String) (eventId : Option String) (message : String)
    (now : Nat) : AlertDoc :=
  { alertId := "ALT" ++ toString now
    type := ty
    priority := priority
    driverId := driverId
    driverName := driverName
    eventId := eventId
    message := message
    acknowledged := false
    acknowledgedAt := none
    acknowledgedBy := none
    createdAt := now }

/-- The fixed severity-to-priority object lookup of `createAlertFromEvent`:
`{low: 'low', medium: 'medium', high: 'critical'}`. -/
def priorityMap : Severity → AlertPriority
  | Severity.low => AlertPriority.low
  | Severity.medium => AlertPriority.medium
  | Severity.high => AlertPriority.critical

/-- `createAlertFromEvent` from the alerts service (lines 62-90): synthesises
the per-severity message template around the driver name and driver status,
applies the priority map, and delegates to `createAlert` (the source's nested
ternary on severity is the three-way match below). -/
def createAlertFromEvent (driverId driverName eventId : String)
    (severity : Severity) (driverStatus : String) (now : Nat) : AlertDoc :=
  let message :=
    match severity with
    | Severity.high =>
        "🚨 CRITICAL: Driver " ++ driverName ++ " detected " ++ driverStatus ++
          ". Immediate action required."
    | Severity.medium =>
        "⚠️ WARNING: Driver " ++ driverName ++ " showing " ++ driverStatus ++
          " signs."
    | Severity.low =>
        "ℹ️ INFO: Driver " ++ driverName ++ " had a brief " ++ driverStatus ++
          " episode."
  createAlert
    (if severity == Severity.high then AlertType.high_severity
      else AlertType.drowsiness_detected)
    (priorityMap severity) driverId driverName (some eventId) message now

/-- C4: `createAlertFromEvent` maps severity high to priority critical,
medium to medium, and low to low; and for a fixed severity the generated
message is exactly the fixed per-severity template around the embedded driver
name and driver status, so it varies only in those two substrings. -/
theorem createAlertFromEvent_priority_message
    (did dn eid st : String) (now : Nat) :
    (createAlertFromEvent did dn eid Severity.high st now).priority =
        AlertPriority.critical ∧
    (createAlertFromEvent did dn eid Severity.medium st now).priority =
        AlertPriority.medium ∧
    (createAlertFromEvent did dn eid Severity.low st now).priority =
        AlertPriority.low ∧
    (createAlertFromEvent did dn eid Severity.high st now).message =
        "🚨 CRITICAL: Driver " ++ dn ++ " detected " ++ st ++
          ". Immediate action required." ∧
    (createAlertFromEvent did dn eid Severity.medium st now).message =
        "⚠️ WARNING: Driver " ++ dn ++ " showing " ++ st ++ " signs." ∧
    (createAlertFromEvent did dn eid Severity.low st now).message =
        "ℹ️ INFO: Driver " ++ dn ++ " had a brief " ++ st ++ " episode." :=
  ⟨rfl, rfl, rfl, rfl, rfl, rfl⟩

/-- The alerts collection: an association list from Firestore document id to
alert document. `addDoc` generates the document id, so it is unrelated to
the `alertId` field stored inside the document (the alert converter is the
identity and injects no id on reads). -/
def AlertStore := List (String × AlertDoc)

/-- Insertion step of a stable sort by `createdAt` descending. -/
def insertByCreatedAtDesc (p : String × AlertDoc) :
    List (String × AlertDoc) → List (String × AlertDoc)
  | [] => [p]
  | q :: qs =>
      if q.2.createdAt ≥ p.2.createdAt then q :: insertByCreatedAtDesc p qs
      else p :: q :: qs

/-- Sort by `createdAt` descending, modelling the query's
`orderBy('createdAt', 'desc')`. -/
def sortByCreatedAtDesc : List (String × AlertDoc) → List (String × AlertDoc)
  | [] => []
  | p :: ps => insertByCreatedAtDesc p (sortByCreatedAtDesc ps)

/-- `getUnacknowledgedAlerts` (alerts service, lines 106-115): the documents
with `acknowledged == false`, ordered by `createdAt` descending, limited to
`maxResults`, returned as data (without their document ids). -/
def getUnacknowledgedAlerts (store : AlertStore) (maxResults : Nat) :
    List AlertDoc :=
  ((sortByCreatedAtDesc (store.filter (fun p => !p.2.acknowledged))).map
    (fun p => p.2)).take maxResults

/-- `acknowledgeAlert` (alerts service, lines 153-163): `updateDoc` on the
document addressed by `docId`, setting the acknowledgement fields; `updateDoc`
fails when no document with that id exists. -/
def acknowledgeAlert (store : AlertStore) (docId userId : String) (now : Nat) :
    Except String AlertStore :=
  if store.any (fun p => p.1 == docId) then
    Except.ok (store.map (fun p =>
      if p.1 == docId then
        (p.1, { p.2 with
                  acknowledged := true
                  acknowledgedAt := some now
                  acknowledgedBy := some userId })
      else p))
  else Except.error "updateDoc: no document to update"

/-- `acknowledgeAllAlerts` (alerts service, lines 168-176): fetches up to 500
unacknowledged alerts, then calls `acknowledgeAlert` once per fetched alert,
passing the alert's `alertId` field as the document id. `Promise.all` of the
independent updates is modelled as a left fold in which a failed update
leaves the store unchanged and clears the overall success flag, while the
other updates still apply. -/
def acknowledgeAllAlerts (store : AlertStore) (userId : String) (now : Nat) :
    AlertStore × Bool :=
  let unacknowledged := getUnacknowledgedAlerts store 500
  unacknowledged.foldl
    (fun st alert =>
      match acknowledgeAlert st.1 alert.alertId userId now with
      | Except.ok s => (s, st.2)
      | Except.error _ => (st.1, false))
    (store, true)

/-- An unacknowledged alert stored at document id "A" whose `alertId` field
is "B", the id of a different document. -/
def mismatchedAlert : AlertDoc :=
  { alertId := "B"
    type := AlertType.drowsiness_detected
    priority := AlertPriority.low
    driverId := "DRV001"
    driverName := "N"
    eventId := none
    message := "m"
    acknowledged := false
    acknowledgedAt := none
    acknowledgedBy := none
    createdAt := 1 }

/-- An already-acknowledged alert stored at document id "B". -/
def bystanderAlert : AlertDoc :=
  { alertId := "C"
    type := AlertType.drowsiness_detected
    priority := AlertPriority.low
    driverId := "DRV002"
    driverName := "N2"
    eventId := none
    message := "m2"
    acknowledged := true
    acknowledgedAt := some 0
    acknowledgedBy := some "u0"
    createdAt := 0 }

/-- C5 (code bug): on a store where the unacknowledged alert at document id
"A" carries `alertId = "B"` while document "B" is a different, already
acknowledged alert, `acknowledgeAllAlerts` fetches exactly the alert at "A",
yet every update succeeds (it re-stamps document "B") and the fetched alert
at "A" is still unacknowledged afterwards — the bulk operation does not
perform the single-alert acknowledge on the fetched alerts, because it passes
the `alertId` field where `acknowledgeAlert` expects the document id. -/
theorem acknowledgeAllAlerts_misses_fetched_alert :
    getUnacknowledgedAlerts [("A", mismatchedAlert), ("B", bystanderAlert)] 500 =
        [mismatchedAlert] ∧
    (acknowledgeAllAlerts [("A", mismatchedAlert), ("B", bystanderAlert)]
        "op" 5).2 = true ∧
    ((acknowledgeAllAlerts [("A", mismatchedAlert), ("B", bystanderAlert)]
        "op" 5).1.lookup "A").map (fun a => a.acknowledged) = some false :=
  ⟨rfl, rfl, rfl⟩

/-- The optional-argument record of `createEvent` (events service, lines
41-51): `startTime`, `duration`, `endTime`, `notes` and `location` may all be
omitted (or passed as null where the source allows null). -/
structure CreateEventArgs where
  driverId : String
  driverName : String
  driverStatus : DriverStatus
  severity : Severity
  startTime : Option Nat := none
  duration : Option Nat := none
  endTime : Option Nat := none
  notes : Option String := none
  location : Option GeoPoint := none
deriving DecidableEq, Repr

/-- `createEvent` (events service, lines 41-74): builds the event document
that `addDoc` stores. `startTime` defaults to `now`, `endTime` to null,
`duration` to null (`data.duration ?? null`), `notes` to the empty string;
`resolved` starts false with null resolution fields and
`createdAt := Timestamp.now()`. The `duration` and `endTime` arguments are
copied independently of each other. -/
def createEvent (data : CreateEventArgs) (now : Nat) : DrowsinessEventDoc :=
  { eventId := "EVT" ++ toString now
    driverId := data.driverId
    driverName := data.driverName
    startTime := data.startTime.getD now
    endTime := data.endTime
    duration := data.duration
    driverStatus := data.driverStatus
    severity := data.severity
    resolved := false
    resolvedAt := none
    resolvedBy := none
    notes := data.notes.getD ""
    location := data.location
    createdAt := now }

/-- `endEvent` (events service, lines 226-236): the `updateDoc` merge applied
to the targeted event document, setting `endTime` and `duration` to the given
(non-null) values and leaving the other fields unchanged. -/
def endEvent (docData : DrowsinessEventDoc) (endTime duration : Nat) :
    DrowsinessEventDoc :=
  { docData with endTime := some endTime, duration := some duration }

/-- C6 counterexample: `createEvent` accepts a `duration` argument with no
`endTime`; the stored event then has `duration = some 78` but
`endTime = none`, so an event produced by `createEvent` with allowed
arguments violates `duration ≠ null ⇔ endTime ≠ null`. -/
theorem createEvent_duration_without_endTime :
    (createEvent
        { driverId := "DRV001", driverName := "N",
          driverStatus := DriverStatus.drowsy, severity := Severity.high,
          duration := some 78 } 0).duration = some 78 ∧
    (createEvent
        { driverId := "DRV001", driverName := "N",
          driverStatus := DriverStatus.drowsy, severity := Severity.high,
          duration := some 78 } 0).endTime = none :=
  ⟨rfl, rfl⟩

/-- C6 amended: events produced by `createEvent` satisfy
`duration ≠ null ⇔ endTime ≠ null` exactly when the arguments pair the two
fields (each is copied independently from the arguments), and `endEvent`
always establishes the invariant because it sets both fields to non-null
values. -/
theorem event_duration_endTime_invariant_amended :
    (∀ (data : CreateEventArgs) (now : Nat),
      (data.duration ≠ none ↔ data.endTime ≠ none) →
      ((createEvent data now).duration ≠ none ↔
        (createEvent data now).endTime ≠ none)) ∧
    (∀ (docData : DrowsinessEventDoc) (t d : Nat),
      (endEvent docData t d).duration ≠ none ∧
        (endEvent docData t d).endTime ≠ none) := by
  constructor
  · intro data now hpair
    exact hpair
  · intro docData t d
    exact ⟨Option.some_ne_none d, Option.some_ne_none t⟩

/-- Witness for `event_duration_endTime_invariant_amended`: a concrete call
with both `duration` and `endTime` supplied satisfies the invariant. -/
theorem event_duration_endTime_invariant_amended_witness :
    (createEvent
        { driverId := "DRV001", driverName := "N",
          driverStatus := DriverStatus.drowsy, severity := Severity.high,
          duration := some 78, endTime := some 1078 } 0).duration ≠ none ↔
      (createEvent
        { driverId := "DRV001", driverName := "N",
          driverStatus := DriverStatus.drowsy, severity := Severity.high,
          duration := some 78, endTime := some 1078 } 0).endTime ≠ none :=
  event_duration_endTime_invariant_amended.1
    { driverId := "DRV001", driverName := "N",
      driverStatus := DriverStatus.drowsy, severity := Severity.high,
      duration := some 78, endTime := some 1078 } 0
    (by simp)

/-- Live status entry stored in the realtime store (types module). -/
structure LiveDriverStatusEntry where
  driverId : String
  driverName : String
  status : LiveDriverStatus
  lastUpdated : Nat
  sessionStart : Option Nat
deriving DecidableEq, Repr

/-- The realtime store's per-driver status map: path
`driverStatus/{driverId}` to entry. -/
def RealtimeStore := String → Option LiveDriverStatusEntry

/-- `setDriverLiveStatus` (realtime service, lines 30-44): full `set`
overwrite of the entry at the driver's path, stamping `lastUpdated := now`
and `sessionStart := now` when the status is not offline, else null. -/
def setDriverLiveStatus (store : RealtimeStore) (driverId driverName : String)
    (status : LiveDriverStatus) (now : Nat) : RealtimeStore :=
  fun k =>
    if k = driverId then
      some { driverId := driverId
             driverName := driverName
             status := status
             lastUpdated := now
             sessionStart :=
               if status ≠ LiveDriverStatus.offline then some now else none }
    else store k

/-- `updateDriverStatus` (realtime service, lines 49-58): partial `update` of
only the `status` and `lastUpdated` children at the driver's path. On a
missing path the realtime `update` would create a partial object lacking the
other required entry fields, which is outside the typed data model, so the
model applies the merge to a present entry and leaves an absent key absent;
the properties below only concern stored entries. -/
def updateDriverStatus (store : RealtimeStore) (driverId : String)
    (status : LiveDriverStatus) (now : Nat) : RealtimeStore :=
  fun k =>
    if k = driverId then
      (store k).map (fun e => { e with status := status, lastUpdated := now })
    else store k

/-- C7: `updateDriverStatus` overwrites only the `status` and `lastUpdated`
fields of the stored entry and leaves `sessionStart`, `driverName` and
`driverId` unchanged, and touches no other key; in particular
`setStatus("DRV002", "Sarah Chen", drowsy)` followed by
`updateStatus("DRV002", alert)` leaves a final entry with status alert whose
`sessionStart` retains the value stamped by the first call. -/
theorem updateDriverStatus_frame
    (store : RealtimeStore) (did : String) (st : LiveDriverStatus) (now : Nat) :
    (updateDriverStatus store did st now did).map (fun e => e.sessionStart) =
        (store did).map (fun e => e.sessionStart) ∧
    (updateDriverStatus store did st now did).map (fun e => e.driverName) =
        (store did).map (fun e => e.driverName) ∧
    (updateDriverStatus store did st now did).map (fun e => e.driverId) =
        (store did).map (fun e => e.driverId) ∧
    (updateDriverStatus store did st now did).map (fun e => e.status) =
        (store did).map (fun _ => st) ∧
    (updateDriverStatus store did st now did).map (fun e => e.lastUpdated) =
        (store did).map (fun _ => now) ∧
    (∀ k, k = did ∨ updateDriverStatus store did st now k = store k) ∧
    (∀ t1 t2 : Nat,
      updateDriverStatus
          (setDriverLiveStatus store "DRV002" "Sarah Chen"
            LiveDriverStatus.drowsy t1)
          "DRV002" LiveDriverStatus.alert t2 "DRV002" =
        some { driverId := "DRV002"
               driverName := "Sarah Chen"
               status := LiveDriverStatus.alert
               lastUpdated := t2
               sessionStart := some t1 }) := by
  refine ⟨?_, ?_, ?_, ?_, ?_, ?_, ?_⟩
  · cases h : store did <;> simp [updateDriverStatus, h]
  · cases h : store did <;> simp [updateDriverStatus, h]
  · cases h : store did <;> simp [updateDriverStatus, h]
  · cases h : store did <;> simp [updateDriverStatus, h]
  · cases h : store did <;> simp [updateDriverStatus, h]
  · intro k
    by_cases hk : k = did
    · exact Or.inl hk
    · exact Or.inr (by simp [updateDriverStatus, hk])
  · intro t1 t2
    rfl

/-- The dashboard metrics record (stats service, lines 182-190); the trend
can be negative, so it is an `Int`. -/
structure DashboardMetrics where
  totalEvents : Nat
  highSeverityEvents : Nat
  avgDuration : Nat
  activeDrivers : Nat
  totalDrivers : Nat
  unresolvedEvents : Nat
  trendPercentage : Int
deriving DecidableEq, Repr

/-- `getDashboardMetrics` (stats service, lines 195-220) as a pure function
of the fetch results: `todayStats` and `yesterdayStats` are the (possibly
absent) precomputed DailyStats documents of today and yesterday. Every
`doc?.field ?? 0` read becomes `(·.map field).getD 0`; the trend is
`Math.round(((totalEvents - yesterdayEvents) / yesterdayEvents) * 100)`
guarded by `yesterdayEvents > 0`, and `totalDrivers` and `unresolvedEvents`
are the constant placeholders `0` commented "populated by caller" and
"updated by caller". -/
def getDashboardMetrics (todayStats yesterdayStats : Option DailyStatsDoc) :
    DashboardMetrics :=
  let totalEvents : Nat := (todayStats.map (fun s => s.totalEvents)).getD 0
  let yesterdayEvents : Nat := (yesterdayStats.map (fun s => s.totalEvents)).getD 0
  let trendPercentage : Int :=
    if yesterdayEvents > 0 then
      jsRoundDivInt ((Int.ofNat totalEvents - Int.ofNat yesterdayEvents) * 100)
        (Int.ofNat yesterdayEvents)
    else 0
  { totalEvents := totalEvents
    highSeverityEvents := (todayStats.map (fun s => s.highSeverityEvents)).getD 0
    avgDuration := (todayStats.map (fun s => s.averageDuration)).getD 0
    activeDrivers := (todayStats.map (fun s => s.activeDrivers)).getD 0
    totalDrivers := 0
    unresolvedEvents := 0
    trendPercentage := trendPercentage }

/-- C8: when yesterday's event count is positive the trend is the rounded
percentage change, and whenever yesterday's DailyStats document is absent or
its count is zero the trend is `0` (no division happens) and `totalEvents`
is sourced from today's document only. -/
theorem getDashboardMetrics_trend (todayStats yesterdayStats : Option DailyStatsDoc) :
    (0 < (yesterdayStats.map (fun s => s.totalEvents)).getD 0 →
      (getDashboardMetrics todayStats yesterdayStats).trendPercentage =
        jsRoundDivInt
          ((Int.ofNat ((todayStats.map (fun s => s.totalEvents)).getD 0) -
              Int.ofNat ((yesterdayStats.map (fun s => s.totalEvents)).getD 0)) * 100)
          (Int.ofNat ((yesterdayStats.map (fun s => s.totalEvents)).getD 0))) ∧
    ((yesterdayStats.map (fun s => s.totalEvents)).getD 0 = 0 →
      (getDashboardMetrics todayStats yesterdayStats).trendPercentage = 0 ∧
      (getDashboardMetrics todayStats yesterdayStats).totalEvents =
        (todayStats.map (fun s => s.totalEvents)).getD 0) := by
  constructor
  · intro hpos
    show (if 0 < (yesterdayStats.map (fun s => s.totalEvents)).getD 0 then _ else _) = _
    rw [if_pos hpos]
  · intro hzero
    refine ⟨?_, rfl⟩
    show (if 0 < (yesterdayStats.map (fun s => s.totalEvents)).getD 0 then _ else _) = _
    rw [if_neg (by omega)]

/-- Witness for `getDashboardMetrics_trend`: with a concrete today document
of 10 events and no yesterday document, the positive-count branch is
exercised on a second pair of documents (yesterday 5, today 10 gives a 100%
trend) and the absent-yesterday branch gives trend 0 and totalEvents 10. -/
theorem getDashboardMetrics_trend_witness :
    ((getDashboardMetrics
        (some { date := "2024-01-02", totalEvents := 10, highSeverityEvents := 0,
                mediumSeverityEvents := 0, lowSeverityEvents := 0,
                totalDrowsinessDuration := 0, averageDuration := 0,
                activeDrivers := 0, peakHour := 0, eventsByHour := fun _ => 0,
                updatedAt := 0 })
        none).trendPercentage = 0 ∧
      (getDashboardMetrics
        (some { date := "2024-01-02", totalEvents := 10, highSeverityEvents := 0,
                mediumSeverityEvents := 0, lowSeverityEvents := 0,
                totalDrowsinessDuration := 0, averageDuration := 0,
                activeDrivers := 0, peakHour := 0, eventsByHour := fun _ => 0,
                updatedAt := 0 })
        none).totalEvents = 10) ∧
    (getDashboardMetrics
        (some { date := "2024-01-02", totalEvents := 10, highSeverityEvents := 0,
                mediumSeverityEvents := 0, lowSeverityEvents := 0,
                totalDrowsinessDuration := 0, averageDuration := 0,
                activeDrivers := 0, peakHour := 0, eventsByHour := fun _ => 0,
                updatedAt := 0 })
        (some { date := "2024-01-01", totalEvents := 5, highSeverityEvents := 0,
                mediumSeverityEvents := 0, lowSeverityEvents := 0,
                totalDrowsinessDuration := 0, averageDuration := 0,
                activeDrivers := 0, peakHour := 0, eventsByHour := fun _ => 0,
                updatedAt := 0 })).trendPercentage =
      jsRoundDivInt (((10 : Int) - (5 : Int)) * 100) (5 : Int) :=
  ⟨(getDashboardMetrics_trend
      (some { date := "2024-01-02", totalEvents := 10, highSeverityEvents := 0,
              mediumSeverityEvents := 0, lowSeverityEvents := 0,
              totalDrowsinessDuration := 0, averageDuration := 0,
              activeDrivers := 0, peakHour := 0, eventsByHour := fun _ => 0,
              updatedAt := 0 })
      none).2 rfl,
   (getDashboardMetrics_trend
      (some { date := "2024-01-02", totalEvents := 10, highSeverityEvents := 0,
              mediumSeverityEvents := 0, lowSeverityEvents := 0,
              totalDrowsinessDuration := 0, averageDuration := 0,
              activeDrivers := 0, peakHour := 0, eventsByHour := fun _ => 0,
              updatedAt := 0 })
      (some { date := "2024-01-01", totalEvents := 5, highSeverityEvents := 0,
              mediumSeverityEvents := 0, lowSeverityEvents := 0,
              totalDrowsinessDuration := 0, averageDuration := 0,
              activeDrivers := 0, peakHour := 0, eventsByHour := fun _ => 0,
              updatedAt := 0 })).1 (by decide)⟩

/-- C10: `getDashboardMetrics` always returns `totalDrivers = 0` and
`unresolvedEvents = 0`, whatever the stores hold: both fields are caller
placeholders, not derived values. -/
theorem getDashboardMetrics_placeholder_fields
    (todayStats yesterdayStats : Option DailyStatsDoc) :
    (getDashboardMetrics todayStats yesterdayStats).totalDrivers = 0 ∧
    (getDashboardMetrics todayStats yesterdayStats).unresolvedEvents = 0 :=
  ⟨rfl, rfl⟩

end AlertDriver
